import Mathlib

/-!
Shallow embedding of the login-menu state machine of `commands/menu.py`
(old-vanciamud).  Menu nodes are top-level handlers receiving the session
state and the latest input line; they return a prompt, an option table and
perform side effects (account mutations, e-mail dispatch, echo toggles,
disconnect, login).  The embedding models the per-session `EvMenu` loop:
`step` matches the input against the current option keys and calls the
target node's handler, mirroring the Python source function by function.
-/

set_option maxRecDepth 4000

namespace VanciaMenu

/-- The menu nodes of `commands/menu.py` (top-level functions). -/
inductive Node where
  | start
  | username
  | ask_password
  | create_account
  | create_username
  | create_password
  | create_email_address
  | validate_account
  | quit
  | check_temporary_password
  | change_temporary_password
deriving DecidableEq, Repr

/-- An account of the Account Directory.  `password` models the stored
credential: `check_password(c)` is embedded as comparison of `c` with this
field, and `set_password` replaces it.  `email = ""` models "no e-mail on
file" (Python truthiness of `account.email`).  `valid`, `sent_validation`
and `validation_code` embed `account.db.valid`, `account.db.sent_validation`
and `account.db.validation_code` (codes stored by the code are non-empty
4-digit strings, so Python truthiness of the attribute is `Option.isSome`). -/
structure Account where
  name : String
  password : String
  email : String
  valid : Bool
  sent_validation : Bool
  validation_code : Option String
deriving DecidableEq, Repr

/-- One tuple of `ServerConfig.objects.conf("server_bans")`: tup[0] is a
lower-cased account name, tup[2] an optional compiled address regex,
modelled abstractly as a predicate on the session address. -/
structure BanEntry where
  nameKey : String
  addrRegex : Option (String → Bool)

/-- An e-mail handed to `send_email("NOREPLY", to, subject, body)`:
`recipient` is the to-address.  The body of each message in the source
interpolates exactly one generated secret (temporary password or
validation code), recorded in `secret`. -/
structure Email where
  sender : String
  recipient : String
  secret : String
deriving DecidableEq, Repr

/-- One entry of the option table returned by a node: the matched keyword
(`"_default"` for the fallthrough), the echo toggle performed by the
option's `exec` lambda if any, and the goto target node. -/
structure MenuOption where
  key : String
  echoExec : Option Bool
  goto : Node
deriving DecidableEq, Repr

/-- The transient per-session state stashed on `caller.ndb._menutree`.
`account` holds the lookup key (name) of the pending account; Python holds
the object itself, but mutations are written through to the directory, so
reading through the directory by name is equivalent for a single session.
`password_attempts` is `none` while the attribute is absent
(`getattr(menutree, "password_attempts", 0)` supplies the 0 default). -/
structure Menutree where
  account : Option String
  accountname : Option String
  password_attempts : Option Nat
deriving DecidableEq, Repr

/-- Whether the session is still in the menu, was forcibly disconnected
(`caller.sessionhandler.disconnect`), or logged in
(`caller.sessionhandler.login`). -/
inductive SessionStatus where
  | active
  | disconnected (msg : String)
  | loggedIn (name : String)
deriving DecidableEq, Repr

/-- The full per-session state of the embedded machine.  `dir` is the
Account Directory (list of accounts, looked up case-insensitively).
`options` is the option table returned by the last node handler.  `emails`,
`msgs` and `logs` accumulate the Notifier calls, the `caller.msg` texts and
the `logger.log_trace` calls.  `authFails` counts the failed security-gated
password/temporary-password comparisons (each `check_password` mismatch in
`ask_password` and `check_temporary_password`).  `rng` is the stream of
random bytes consumed by `os.urandom`. -/
structure SessionState where
  dir : List Account
  mt : Menutree
  options : List MenuOption
  echo : Bool
  status : SessionStatus
  emails : List Email
  msgs : List String
  lastText : String
  authFails : Nat
  logs : Nat
  rng : List Nat
deriving DecidableEq, Repr

/-- External collaborators of one session: the peer address, the ban list,
the Account Directory's password policy (`account.validate_password`) and
the outcome of `unloggedin._create_account` (raises, returns an account, or
returns a falsy value). -/
structure Env where
  address : String
  bans : List BanEntry
  validate_password : String → Bool
  createAccountResult : Except String Bool

/-! ### Directory operations and small helpers -/

/-- Python `str.strip()`: drop leading and trailing whitespace.  (Defined
over the character list so that it evaluates by kernel reduction.) -/
def strip (s : String) : String :=
  String.mk (((s.data.dropWhile Char.isWhitespace).reverse.dropWhile
    Char.isWhitespace).reverse)

/-- Python `str.lower()`.  (Defined over the character list so that it
evaluates by kernel reduction.) -/
def lower (s : String) : String :=
  String.mk (s.data.map Char.toLower)

/-- `managers.accounts.get_account_from_name`: case-insensitive lookup. -/
def get_account_from_name (dir : List Account) (name : String) : Option Account :=
  dir.find? (fun a => lower a.name == lower name)

/-- Write-through of a mutation of the account object named `name`. -/
def update_account (dir : List Account) (name : String) (f : Account → Account) :
    List Account :=
  dir.map (fun a => if lower a.name == lower name then f a else a)

/-- `RE_VALID_USERNAME = re.compile(r"^[a-z]\x7b3,\x7d$", re.I)` applied with
`.search`: at least three characters, ASCII letters only, case-insensitive. -/
def RE_VALID_USERNAME (s : String) : Bool :=
  3 ≤ s.length && s.data.all (fun c => c.isAlpha)

/-- `LEN_PASSWD = 6`. -/
def LEN_PASSWD : Nat := 6

/-- `string.lowercase + string.digits`. -/
def LOWERCASE_DIGITS : String := "abcdefghijklmnopqrstuvwxyz0123456789"

/-- `string.digits`. -/
def DIGITS : String := "0123456789"

/-- `_generate_password(length, charset)`:
`indices = [int(len(charset) * (ord(byte) / 256.0)) for byte in random_bytes]`.
For charsets of at most 256 characters the float expression
`int(len(charset) * (b / 256.0))` is exact and equals natural division
`len(charset) * b / 256` (the products are small dyadic rationals, exactly
representable).  The caller supplies the `os.urandom(length)` bytes. -/
def _generate_password (random_bytes : List Nat) (charset : String) : String :=
  let indices := random_bytes.map (fun b => charset.length * b / 256)
  String.mk (indices.map (fun i => charset.data.getD i ' '))

/-- `django.core.validators.validate_email`, an external syntactic check;
modelled abstractly as "contains an `@`" (no claim depends on its details). -/
def validate_email (s : String) : Bool :=
  s.data.any (fun c => c == '@')

/-- The ban test of `ask_password`:
`bans and (any(tup[0] == account.name.lower() for tup in bans) or
any(tup[2].match(caller.address) for tup in bans if tup[2]))`. -/
def compute_banned (bans : List BanEntry) (accountName : String) (address : String) :
    Bool :=
  !bans.isEmpty &&
    (bans.any (fun t => t.nameKey == lower accountName) ||
     bans.any (fun t =>
       match t.addrRegex with
       | some r => r address
       | none => false))

/-! ### Prompt texts (from the source, dedented; braces interpolated) -/

def connection_text : String :=
  "Entrez votre nom d\x27utilisateur ou |yNOUVEAU|n pour en créer un."

def username_not_found_text : String :=
  "|rCe nom d\x27utilisateur n\x27existe pas.|n L\x27avez-vous créé ?\nEssayez un nouveau nom d\x27utilisateur existant, ou entrez |yr|n\npour revenir à l\x27écran d\x27accueil."

def recovery_email_sent_text : String :=
  "Un e-mail de confirmation a été envoyé à l\x27ancienne adresse e-mail de cet utilisateur.\nEntrez le mot de passe temporaire reçu par e-mail :"

def enter_temp_password_text : String :=
  "Entrez le mot de passe temporaire reçu par e-mail :"

def enter_password_text (name : String) : String :=
  "Entrez le mot de passe pour l\x27utilisateur " ++ name ++ "."

def lockout_text : String :=
  "|rIl y a eu trop de tentatives de connexion erronnées. Déconnexion...|n"

def wrong_password_text : String :=
  "|rMot de passe invalide.|n\nEssayez un autre mot de passe ou entrez |yr|n pour revenir à l\x27écran d\x27accueil.\n"

def ban_text : String :=
  "|rVous avez été banni(e) et ne pouvez vous connecter.\nSi vous pensez que ce bannissement est une erreur, contactez les administrateurs à\nadmin@vanciamud.fr\n"

def need_email_text : String :=
  "Vous n\x27avez pas précisé d\x27adresse e-mail valide pour ce compte.\nEntrez votre adresse e-mail :"

def enter_code_text : String :=
  "Un code de validaiton à 4 chiffres vous a précédemment été envoyé par e-mail.\nCode à 4 chiffres :"

def create_account_prompt : String :=
  "Entrez le nom de votre nouvel utilisateur."

def username_exists_text (s : String) : String :=
  "|rL\x27utilisateur " ++ s ++ " existe déjà.|n\nEntrez un autre nom d\x27utilisateur, ou entrez |yr|n pour revenir à l\x27écran d\x27accueil.\n"

def username_invalid_text : String :=
  "|rCe nom d\x27utilisateur n\x27est pas valide.|n\nSeules des lettres sont acceptées.\nLe nom d\x27utilisateur doit comporter au moins 3 lettres.\nEntrez un nouveau nom d\x27utilisateur ou entrez |yr|n pour revenir à l\x27écran d\x27accueil.\n"

def new_password_prompt : String :=
  "Entrez le mot de passe de ce nouvel utilisateur."

def password_too_short_text : String :=
  "|rLe mot de passe doit comporter au moins 6 caractères.|n\nEntrez un nouveau mot de passe ou entrez |yr|n pour revenir à l\x27écran d\x27accueil.\n"

def unexpected_error_text : String :=
  "|rUne erreur inattendue s\x27est produite..|n  S\x27il vous plaît, envoyez un e-mail\nà admin@vanciamud.fr pour signaler ce problème.\n"

def account_created_text : String :=
  "Le nouvel utilisateur a bien été créé.\nVeuillez entrer une adresse e-mail valide :"

def invalid_email_text (s : String) : String :=
  "|rDésolé, l\x27adresse e-mail " ++ s ++ " ne semble pas valide.|n\n\nEssayez d\x27entrer une adresse e-mail de nouveau.\n"

def validation_email_sent_text : String :=
  "Un e-mail de confirmation a été envoyé à cette adresse e-mail.\nEntrez le code de validation à 4 chiffres :"

def wrong_code_text (s : String) : String :=
  "|rDésolé, le code de validation spécifié " ++ s ++ " ne correpsond pas à celui attendu par cet utilisateur.\nEst-ce bien le code que vous avez reçu par e-mail ? Vous pouvez essayer de\nl\x27entrer à nouveau.\n"

def welcome_text : String :=
  "|gBienvenue sur l\x27ancien VanciaMUD !|n"

def farewell_text : String :=
  "Au revoir ! Déconnexion..."

def temp_password_ok_text : String :=
  "Mot de passe temporaire valide.\nChangement de mot de passe : entrez un nouveau mot de passe pour cet utilisateur.\nNouveau mot de passe :"

def change_password_invalid_text : String :=
  "|rCe mot de passe n\x27est pas valide.|n Entrez un nouveau mot de passe :"

/-! ### Option tables (from the source) -/

/-- Options of the `start` node. -/
def start_options : List MenuOption :=
  [⟨"nouveau", none, Node.create_account⟩,
   ⟨"quit", none, Node.quit⟩,
   ⟨"_default", none, Node.username⟩]

/-- Options returned both by `username` (account found and valid) and by
`ask_password` after a recoverable mismatch: the `"r"` option's `exec`
re-enables echo, the default loops into `ask_password`. -/
def password_options : List MenuOption :=
  [⟨"r", some true, Node.start⟩,
   ⟨"_default", none, Node.ask_password⟩]

/-- Retry options of `create_username` (name taken or invalid). -/
def retry_create_username_options : List MenuOption :=
  [⟨"r", none, Node.start⟩,
   ⟨"_default", none, Node.create_username⟩]

/-- Initial options of `create_password`, also returned on a short password
and on a directory failure. -/
def create_password_init_options : List MenuOption :=
  [⟨"r", some true, Node.start⟩,
   ⟨"_default", none, Node.create_password⟩]

/-! ### Node handlers -/

/-- Node `start`. -/
def start_node (st : SessionState) : SessionState :=
  { st with lastText := connection_text, options := start_options }

/-- Node `username(caller, string_input)`. -/
def username_node (st : SessionState) (inp : String) : SessionState :=
  let s := strip inp
  match get_account_from_name st.dir s with
  | none =>
      { st with lastText := username_not_found_text,
                options := [⟨"r", none, Node.start⟩,
                            ⟨"_default", none, Node.username⟩] }
  | some account =>
      if account.email != "" &&
         !(account.valid || account.sent_validation || account.validation_code.isSome) then
        -- legacy recovery: generate a temporary password, persist it,
        -- e-mail it, set sent_validation
        let password := _generate_password (st.rng.take 6) LOWERCASE_DIGITS
        let dir1 := update_account st.dir account.name
          (fun a => { a with password := password })
        let dir2 := update_account dir1 account.name
          (fun a => { a with sent_validation := true })
        { st with mt := { st.mt with account := some account.name },
                  dir := dir2,
                  emails := st.emails ++ [⟨"NOREPLY", account.email, password⟩],
                  rng := st.rng.drop 6,
                  lastText := recovery_email_sent_text,
                  options := [⟨"_default", none, Node.check_temporary_password⟩] }
      else if !account.valid && account.sent_validation then
        { st with mt := { st.mt with account := some account.name },
                  lastText := enter_temp_password_text,
                  options := [⟨"_default", none, Node.check_temporary_password⟩] }
      else
        { st with mt := { st.mt with account := some account.name },
                  lastText := enter_password_text account.name,
                  echo := false,
                  options := password_options }

/-- Node `ask_password(caller, string_input)`. -/
def ask_password_node (env : Env) (st : SessionState) (inp : String) : SessionState :=
  let s := strip inp
  match st.mt.account with
  | none => st
  | some nm =>
    match get_account_from_name st.dir nm with
    | none => st
    | some account =>
      let password_attempts := st.mt.password_attempts.getD 0
      let banned := compute_banned env.bans account.name env.address
      if s != account.password then
        let password_attempts := password_attempts + 1
        if password_attempts > 2 then
          { st with status := SessionStatus.disconnected lockout_text,
                    lastText := "", options := [],
                    authFails := st.authFails + 1 }
        else
          { st with mt := { st.mt with password_attempts := some password_attempts },
                    lastText := wrong_password_text,
                    options := password_options,
                    authFails := st.authFails + 1 }
      else if banned then
        { st with status := SessionStatus.disconnected ban_text,
                  lastText := "", options := [] }
      else if account.email == "" then
        { st with lastText := need_email_text,
                  options := [⟨"_default", none, Node.create_email_address⟩] }
      else if account.validation_code.isSome then
        { st with lastText := enter_code_text,
                  options := [⟨"_default", none, Node.validate_account⟩] }
      else
        { st with status := SessionStatus.loggedIn account.name,
                  lastText := "", options := [], echo := true }

/-- Node `create_account(caller)`. -/
def create_account_node (st : SessionState) : SessionState :=
  { st with lastText := create_account_prompt,
            options := [⟨"_default", none, Node.create_username⟩] }

/-- Node `create_username(caller, string_input)`. -/
def create_username_node (st : SessionState) (inp : String) : SessionState :=
  let s := strip inp
  match get_account_from_name st.dir s with
  | some _ =>
      { st with lastText := username_exists_text s,
                options := retry_create_username_options }
  | none =>
      if !RE_VALID_USERNAME s then
        { st with lastText := username_invalid_text,
                  options := retry_create_username_options }
      else
        { st with mt := { st.mt with accountname := some s },
                  echo := false,
                  lastText := new_password_prompt,
                  options := [⟨"_default", none, Node.create_password⟩] }

/-- Node `create_password(caller, string_input)`.  The outcome of
`unloggedin._create_account` is injected through
`env.createAccountResult`: `.error e` models a raised exception, `.ok
false` a falsy return, `.ok true` a created account (which the source then
strips of its e-mail; character creation is an external world effect and
not modelled).  Note that the exception branch keeps the initial options
(`"r"` → start, default → `create_password`). -/
def create_password_node (env : Env) (st : SessionState) (inp : String) : SessionState :=
  match st.mt.accountname with
  | none => st
  | some accountname =>
    let password := strip inp
    if password.length < LEN_PASSWD then
      { st with lastText := password_too_short_text,
                options := create_password_init_options }
    else
      match env.createAccountResult with
      | Except.error _ =>
          { st with lastText := "",
                    options := create_password_init_options,
                    msgs := st.msgs ++ [unexpected_error_text],
                    logs := st.logs + 1 }
      | Except.ok created =>
          let dir1 := if created then
              st.dir ++ [⟨accountname, password, "", false, false, none⟩]
            else st.dir
          { st with dir := dir1,
                    mt := { st.mt with
                            account := if created then some accountname else none },
                    echo := true,
                    lastText := account_created_text,
                    options := [⟨"_default", none, Node.create_email_address⟩] }

/-- Node `create_email_address(caller, email_address)`. -/
def create_email_address_node (st : SessionState) (inp : String) : SessionState :=
  let email_address := strip inp
  match st.mt.account with
  | none => st
  | some nm =>
    match get_account_from_name st.dir nm with
    | none => st
    | some account =>
      if !validate_email email_address then
        { st with lastText := invalid_email_text email_address,
                  options := [⟨"_default", none, Node.create_email_address⟩] }
      else
        let validation_code := _generate_password (st.rng.take 4) DIGITS
        let dir1 := update_account st.dir account.name
          (fun a => { a with email := email_address,
                             validation_code := some validation_code })
        { st with dir := dir1,
                  emails := st.emails ++ [⟨"NOREPLY", email_address, validation_code⟩],
                  rng := st.rng.drop 4,
                  lastText := validation_email_sent_text,
                  options := [⟨"_default", none, Node.validate_account⟩] }

/-- Node `validate_account(caller, input)`.  The mismatch branch redisplays
and retries; it touches no counter and never disconnects. -/
def validate_account_node (st : SessionState) (inp : String) : SessionState :=
  match st.mt.account with
  | none => st
  | some nm =>
    match get_account_from_name st.dir nm with
    | none => st
    | some account =>
      if account.validation_code != some (strip inp) then
        { st with lastText := wrong_code_text (strip inp),
                  options := [⟨"_default", none, Node.validate_account⟩] }
      else
        let dir1 := update_account st.dir account.name
          (fun a => { a with valid := true, validation_code := none })
        { st with dir := dir1,
                  msgs := st.msgs ++ [welcome_text],
                  lastText := "", options := [],
                  status := SessionStatus.loggedIn account.name }

/-- Node `quit(caller)`. -/
def quit_node (st : SessionState) : SessionState :=
  { st with status := SessionStatus.disconnected farewell_text,
            lastText := "", options := [] }

/-- Node `check_temporary_password(caller, string_input)`.  The mismatch
options contain only the default loop, no `"r"` key. -/
def check_temporary_password_node (st : SessionState) (inp : String) : SessionState :=
  let s := strip inp
  match st.mt.account with
  | none => st
  | some nm =>
    match get_account_from_name st.dir nm with
    | none => st
    | some account =>
      let password_attempts := st.mt.password_attempts.getD 0
      if s != account.password then
        let password_attempts := password_attempts + 1
        if password_attempts > 2 then
          { st with status := SessionStatus.disconnected lockout_text,
                    lastText := "", options := [],
                    authFails := st.authFails + 1 }
        else
          { st with mt := { st.mt with password_attempts := some password_attempts },
                    lastText := wrong_password_text,
                    options := [⟨"_default", none, Node.check_temporary_password⟩],
                    authFails := st.authFails + 1 }
      else
        { st with lastText := temp_password_ok_text,
                  options := [⟨"_default", none, Node.change_temporary_password⟩] }

/-- Node `change_temporary_password(caller, string_input)`. -/
def change_temporary_password_node (env : Env) (st : SessionState) (inp : String) :
    SessionState :=
  let s := strip inp
  match st.mt.account with
  | none => st
  | some nm =>
    match get_account_from_name st.dir nm with
    | none => st
    | some account =>
      if env.validate_password s then
        let dir1 := update_account st.dir account.name
          (fun a => { a with password := s, valid := true })
        { st with dir := dir1,
                  echo := true,
                  lastText := "", options := [],
                  status := SessionStatus.loggedIn account.name }
      else
        { st with lastText := change_password_invalid_text,
                  options := [⟨"_default", none, Node.change_temporary_password⟩] }

/-! ### The EvMenu engine -/

/-- Dispatch to the node handlers (the string-keyed `goto` lookup). -/
def node_call (env : Env) (st : SessionState) (n : Node) (inp : String) : SessionState :=
  match n with
  | Node.start => start_node st
  | Node.username => username_node st inp
  | Node.ask_password => ask_password_node env st inp
  | Node.create_account => create_account_node st
  | Node.create_username => create_username_node st inp
  | Node.create_password => create_password_node env st inp
  | Node.create_email_address => create_email_address_node st inp
  | Node.validate_account => validate_account_node st inp
  | Node.quit => quit_node st
  | Node.check_temporary_password => check_temporary_password_node st inp
  | Node.change_temporary_password => change_temporary_password_node env st inp

/-- EvMenu key matching: the stripped, lower-cased input against non-default
option keys. -/
def find_option (options : List MenuOption) (inp : String) : Option MenuOption :=
  options.find? (fun o => o.key != "_default" && o.key == lower (strip inp))

/-- One engine round: if the session is still active, match the input
against the current option table (running the matched option's `exec` echo
toggle) and call the target node's handler; a terminated session accepts
no further input. -/
def step (env : Env) (st : SessionState) (inp : String) : SessionState :=
  match st.status with
  | SessionStatus.active =>
    match find_option st.options inp with
    | some o =>
        let st1 := match o.echoExec with
          | some b => { st with echo := b }
          | none => st
        node_call env st1 o.goto inp
    | none =>
        match st.options.find? (fun o => o.key == "_default") with
        | some o => node_call env st o.goto inp
        | none => st
  | _ => st

/-- Process a whole list of input lines. -/
def run (env : Env) (st : SessionState) (inputs : List String) : SessionState :=
  inputs.foldl (step env) st

/-- The state of a fresh session: the menu opens on the `start` node with an
empty menutree (in particular no `password_attempts` attribute). -/
def init_state (dir : List Account) (rng : List Nat) : SessionState :=
  { dir := dir,
    mt := ⟨none, none, none⟩,
    options := start_options,
    echo := true,
    status := SessionStatus.active,
    emails := [], msgs := [],
    lastText := connection_text,
    authFails := 0, logs := 0,
    rng := rng }

/-- The stored `password_attempts` with its `getattr` default of 0. -/
def pa (st : SessionState) : Nat :=
  st.mt.password_attempts.getD 0

/-! ### Helper lemmas -/

theorem getD_mem (l : List Char) (i : Nat) (d : Char) (h : i < l.length) :
    l.getD i d ∈ l := by
  rw [List.getD_eq_getElem?_getD, List.getElem?_eq_getElem h]
  exact List.getElem_mem ..

/-- Shared content of the Secret Generator contract: for a non-empty charset
of at most 256 characters and in-range random bytes, every index is within
bounds, so the result has exactly one charset character per byte. -/
theorem generate_password_spec (bytes : List Nat) (charset : String)
    (h1 : charset.length ≠ 0) (_h2 : charset.length ≤ 256)
    (h3 : ∀ b ∈ bytes, b < 256) :
    (_generate_password bytes charset).length = bytes.length ∧
      ∀ c ∈ (_generate_password bytes charset).data, c ∈ charset.data := by
  constructor
  · show ((bytes.map _).map _).length = bytes.length
    simp
  · intro c hc
    simp only [_generate_password, List.mem_map] at hc
    obtain ⟨i, ⟨b, hb, rfl⟩, rfl⟩ := hc
    apply getD_mem
    show charset.length * b / 256 < charset.data.length
    rw [Nat.div_lt_iff_lt_mul (by norm_num : 0 < 256)]
    exact mul_lt_mul_of_pos_left (h3 b hb) (Nat.pos_of_ne_zero h1)

theorem lookup_found_beq {dir : List Account} {s : String} {a : Account}
    (h : get_account_from_name dir s = some a) :
    lower a.name = lower s := by
  unfold get_account_from_name at h
  have hp := List.find?_some h
  exact eq_of_beq hp

/-- An account found under any entered name is also found under its own
name (the keys coincide, and `find?` is deterministic). -/
theorem lookup_self {dir : List Account} {s : String} {a : Account}
    (h : get_account_from_name dir s = some a) :
    get_account_from_name dir a.name = some a := by
  unfold get_account_from_name at h ⊢
  rw [lookup_found_beq h]
  exact h

/-- Lookup through a write-through mutation of account `nm`. -/
theorem lookup_update (dir : List Account) (nm s : String) (f : Account → Account)
    (hf : ∀ x, (f x).name = x.name) :
    get_account_from_name (update_account dir nm f) s =
      (get_account_from_name dir s).map
        (fun a => if lower a.name == lower nm then f a else a) := by
  unfold get_account_from_name update_account
  rw [List.find?_map]
  have hp : ((fun a : Account => lower a.name == lower s) ∘
      (fun a : Account => if lower a.name == lower nm then f a else a)) =
      (fun a : Account => lower a.name == lower s) := by
    funext x
    by_cases hx : (lower x.name == lower nm) = true <;>
      simp [Function.comp, hx, hf]
  rw [hp]

/-! ### C8 — Secret Generator contract -/

/-- C8: for every requested length and every non-empty charset of at most
256 characters, `_generate_password` returns one character per random byte
(so exactly `length` characters for `os.urandom(length)`), each drawn from
the charset: the index computed from each byte stays within bounds. -/
theorem C8_generate_password_in_charset (bytes : List Nat) (charset : String)
    (h1 : charset.length ≠ 0) (h2 : charset.length ≤ 256)
    (h3 : ∀ b ∈ bytes, b < 256) :
    (_generate_password bytes charset).length = bytes.length ∧
      ∀ c ∈ (_generate_password bytes charset).data, c ∈ charset.data :=
  generate_password_spec bytes charset h1 h2 h3

/-- Witness for C8 at a concrete byte list and the digit charset. -/
theorem C8_generate_password_in_charset_witness :
    DIGITS.length ≠ 0 ∧ DIGITS.length ≤ 256 ∧
      (_generate_password [0, 37, 128, 255] DIGITS).length = 4 ∧
      ∀ c ∈ (_generate_password [0, 37, 128, 255] DIGITS).data, c ∈ DIGITS.data := by
  refine ⟨by decide, by decide, ?_, ?_⟩
  · exact (C8_generate_password_in_charset [0, 37, 128, 255] DIGITS
      (by decide) (by decide) (by decide)).1
  · exact (C8_generate_password_in_charset [0, 37, 128, 255] DIGITS
      (by decide) (by decide) (by decide)).2

/-! ### C2 — ban status is never revealed on a wrong password -/

/-- C2: at AskPassword, if the submitted password fails verification, the
whole resulting session state is independent of the environment (ban list
and peer address): the outcome is identical whether or not the account name
or address matches a Ban Entry, so ban status is only surfaced after a
correct password. -/
theorem C2_ban_oracle_free (e1 e2 : Env) (st : SessionState) (s nm : String)
    (a : Account)
    (hacct : st.mt.account = some nm)
    (ha : get_account_from_name st.dir nm = some a)
    (hwrong : strip s ≠ a.password) :
    ask_password_node e1 st s = ask_password_node e2 st s := by
  simp [ask_password_node, hacct, ha, bne_iff_ne.mpr hwrong]

def c2_account : Account := ⟨"bob", "pw", "bob@x.fr", true, false, none⟩

def c2_state : SessionState :=
  { init_state [c2_account] [] with
      mt := ⟨some "bob", none, none⟩, options := password_options }

def c2_env_banned : Env :=
  ⟨"1.2.3.4", [⟨"bob", none⟩], fun _ => true, Except.ok true⟩

def c2_env_clear : Env := ⟨"1.2.3.4", [], fun _ => true, Except.ok true⟩

/-- Witness for C2: a wrong password against a banned account behaves
exactly as against an unbanned one. -/
theorem C2_ban_oracle_free_witness :
    strip "wrong" ≠ c2_account.password ∧
    ask_password_node c2_env_banned c2_state "wrong" =
      ask_password_node c2_env_clear c2_state "wrong" :=
  ⟨by decide,
   C2_ban_oracle_free c2_env_banned c2_env_clear c2_state "wrong" "bob" c2_account
     rfl (by decide) (by decide)⟩

/-! ### C7 — CreateUsername contract -/

/-- C7: at CreateUsername, an existing name (case-insensitively) or a name
failing the format rule (at least 3 characters, letters only) is rejected
with retry options (default retries CreateUsername, `"r"` returns to
Start) and no state change; a well-formed unused name is stored as the
pending account name, echo is disabled, and the default option transitions
to CreatePassword. -/
theorem C7_create_username_contract (st : SessionState) (inp : String) :
    ((get_account_from_name st.dir (strip inp)).isSome = true →
        (create_username_node st inp).options = retry_create_username_options ∧
        (create_username_node st inp).mt = st.mt ∧
        (create_username_node st inp).echo = st.echo) ∧
    (get_account_from_name st.dir (strip inp) = none →
      RE_VALID_USERNAME (strip inp) = false →
        (create_username_node st inp).options = retry_create_username_options ∧
        (create_username_node st inp).mt = st.mt ∧
        (create_username_node st inp).echo = st.echo) ∧
    (get_account_from_name st.dir (strip inp) = none →
      RE_VALID_USERNAME (strip inp) = true →
        (create_username_node st inp).mt.accountname = some (strip inp) ∧
        (create_username_node st inp).echo = false ∧
        (create_username_node st inp).options =
          [⟨"_default", none, Node.create_password⟩]) := by
  refine ⟨fun h => ?_, fun h hre => ?_, fun h hre => ?_⟩
  · obtain ⟨a, ha⟩ := Option.isSome_iff_exists.mp h
    simp [create_username_node, ha]
  · simp [create_username_node, h, hre]
  · simp [create_username_node, h, hre]

def c7_state : SessionState :=
  { init_state [⟨"bob", "pw", "", false, false, none⟩] [] with
      options := [⟨"_default", none, Node.create_username⟩] }

/-- Witness for C7: `"bob"` (taken), `"ab"` (too short) and `"ab2"`
(non-letter) are rejected with the retry options; `"abc"` is accepted. -/
theorem C7_create_username_contract_witness :
    (create_username_node c7_state "bob").options = retry_create_username_options ∧
    (create_username_node c7_state "ab").options = retry_create_username_options ∧
    (create_username_node c7_state "ab2").options = retry_create_username_options ∧
    (create_username_node c7_state "abc").mt.accountname = some "abc" ∧
    (create_username_node c7_state "abc").echo = false ∧
    (create_username_node c7_state "abc").options =
      [⟨"_default", none, Node.create_password⟩] := by
  refine ⟨?_, ?_, ?_, ?_⟩
  · exact ((C7_create_username_contract c7_state "bob").1 (by decide)).1
  · exact ((C7_create_username_contract c7_state "ab").2.1 (by decide) (by decide)).1
  · exact ((C7_create_username_contract c7_state "ab2").2.1 (by decide) (by decide)).1
  · exact (C7_create_username_contract c7_state "abc").2.2 (by decide) (by decide)

/-! ### C4 — the Username recovery branch (corrected) -/

def c4_no_email_account : Account := ⟨"bob", "oldpw", "", false, false, none⟩

/-- Counterexample to C4 as stated: for an existing account with no e-mail
on file (unvalidated, nothing issued), the Username node does NOT generate
or dispatch a temporary password and does NOT transition to
CheckTemporaryPassword — the branch guard requires a truthy
`account.email`, so this account falls through to the AskPassword options
with the directory untouched. -/
theorem C4_counterexample :
    (username_node (init_state [c4_no_email_account] [1, 2, 3, 4, 5, 6])
        "bob").emails = [] ∧
    (username_node (init_state [c4_no_email_account] [1, 2, 3, 4, 5, 6])
        "bob").dir = [c4_no_email_account] ∧
    (username_node (init_state [c4_no_email_account] [1, 2, 3, 4, 5, 6])
        "bob").options = password_options ∧
    ((username_node (init_state [c4_no_email_account] [1, 2, 3, 4, 5, 6])
        "bob").options.all (fun o => o.goto != Node.check_temporary_password)) = true := by
  decide

/-- C4 amended: the recovery branch fires only when the account HAS an
e-mail on file AND is unvalidated with no validation artifact yet issued
(`valid`, `sent_validation`, `validation_code` all unset); it then
generates a temporary password of length 6 from the lowercase-plus-digits
charset, persists it as the account's password, sets `sent_validation`,
dispatches it to the account's recorded address and transitions to
CheckTemporaryPassword.  If the account is unvalidated and
`sent_validation` is already set, it transitions to CheckTemporaryPassword
without regenerating or resending anything. -/
theorem C4_username_recovery_amended (st : SessionState) (inp : String) (a : Account)
    (ha : get_account_from_name st.dir (strip inp) = some a)
    (hbytes : ∀ b ∈ st.rng, b < 256) (hlen : 6 ≤ st.rng.length) :
    (a.email ≠ "" ∧ a.valid = false ∧ a.sent_validation = false ∧
        a.validation_code = none →
      (username_node st inp).options =
        [⟨"_default", none, Node.check_temporary_password⟩] ∧
      (username_node st inp).mt.account = some a.name ∧
      (username_node st inp).emails = st.emails ++
        [⟨"NOREPLY", a.email, _generate_password (st.rng.take 6) LOWERCASE_DIGITS⟩] ∧
      get_account_from_name (username_node st inp).dir a.name =
        some { a with
                 password := _generate_password (st.rng.take 6) LOWERCASE_DIGITS,
                 sent_validation := true } ∧
      (_generate_password (st.rng.take 6) LOWERCASE_DIGITS).length = 6 ∧
      (∀ c ∈ (_generate_password (st.rng.take 6) LOWERCASE_DIGITS).data,
        c ∈ LOWERCASE_DIGITS.data)) ∧
    (a.valid = false ∧ a.sent_validation = true →
      (username_node st inp).options =
        [⟨"_default", none, Node.check_temporary_password⟩] ∧
      (username_node st inp).mt.account = some a.name ∧
      (username_node st inp).emails = st.emails ∧
      (username_node st inp).dir = st.dir) := by
  constructor
  · rintro ⟨he, hv, hs, hc⟩
    have hres : username_node st inp =
        { st with
            mt := { st.mt with account := some a.name },
            dir := update_account (update_account st.dir a.name
                (fun x => { x with
                  password := _generate_password (st.rng.take 6) LOWERCASE_DIGITS }))
              a.name (fun x => { x with sent_validation := true }),
            emails := st.emails ++
              [⟨"NOREPLY", a.email, _generate_password (st.rng.take 6) LOWERCASE_DIGITS⟩],
            rng := st.rng.drop 6,
            lastText := recovery_email_sent_text,
            options := [⟨"_default", none, Node.check_temporary_password⟩] } := by
      simp [username_node, ha, bne_iff_ne.mpr he, hv, hs, hc]
    refine ⟨by rw [hres], by rw [hres], by rw [hres], ?_, ?_, ?_⟩
    · rw [hres]
      show get_account_from_name _ _ = _
      rw [lookup_update _ a.name a.name
            (fun x => { x with sent_validation := true }) (fun x => rfl),
          lookup_update _ a.name a.name
            (fun x => { x with
              password := _generate_password (st.rng.take 6) LOWERCASE_DIGITS })
            (fun x => rfl),
          lookup_self ha]
      simp
    · have h6 : (st.rng.take 6).length = 6 := by
        rw [List.length_take]; omega
      exact (generate_password_spec _ _ (by decide) (by decide)
        (fun b hb => hbytes b (List.take_subset _ _ hb))).1.trans h6
    · exact (generate_password_spec _ _ (by decide) (by decide)
        (fun b hb => hbytes b (List.take_subset _ _ hb))).2
  · rintro ⟨hv, hs⟩
    simp [username_node, ha, hv, hs]

def c4_legacy_account : Account := ⟨"leg", "oldpw", "leg@x.fr", false, false, none⟩

/-- Witness for the amended C4 at a concrete legacy account. -/
theorem C4_username_recovery_amended_witness :
    (username_node (init_state [c4_legacy_account] [10, 20, 30, 40, 50, 60])
        "leg").options = [⟨"_default", none, Node.check_temporary_password⟩] ∧
    (username_node (init_state [c4_legacy_account] [10, 20, 30, 40, 50, 60])
        "leg").emails =
      [⟨"NOREPLY", "leg@x.fr",
        _generate_password ([10, 20, 30, 40, 50, 60].take 6) LOWERCASE_DIGITS⟩] := by
  have h := (C4_username_recovery_amended
    (init_state [c4_legacy_account] [10, 20, 30, 40, 50, 60]) "leg" c4_legacy_account
    (by decide) (by decide) (by decide)).1 ⟨by decide, rfl, rfl, rfl⟩
  exact ⟨h.1, by simpa using h.2.2.1⟩

/-! ### C5 — CreatePassword on directory failure (corrected) -/

def c5_env : Env := ⟨"1.2.3.4", [], fun _ => true, Except.error "database exploded"⟩

def c5_state : SessionState :=
  { init_state [] [] with
      mt := ⟨none, some "alice", none⟩,
      options := [⟨"_default", none, Node.create_password⟩],
      echo := false }

/-- Counterexample to C5 as stated: on a directory failure the node is NOT
a dead-end — it returns its initial option table, whose default option
schedules CreatePassword again and whose `"r"` option returns to Start. -/
theorem C5_counterexample :
    (create_password_node c5_env c5_state "secret1").options =
      create_password_init_options ∧
    (create_password_node c5_env c5_state "secret1").options ≠ [] ∧
    ((create_password_node c5_env c5_state "secret1").options.any
      (fun o => o.goto == Node.create_password)) = true := by
  decide

/-- C5 amended: when the directory's account-creation call raises, the
session is shown only the generic apologetic message (independent of the
failure's internals), the failure is logged, and the node keeps its initial
options: the default retries CreatePassword and `"r"` returns to Start
re-enabling echo — rather than leaving a dead-end with no transition. -/
theorem C5_create_password_failure_amended (env : Env) (st : SessionState)
    (inp e an : String)
    (hacct : st.mt.accountname = some an)
    (hcreate : env.createAccountResult = Except.error e)
    (hlen : LEN_PASSWD ≤ (strip inp).length) :
    create_password_node env st inp =
      { st with lastText := "",
                options := create_password_init_options,
                msgs := st.msgs ++ [unexpected_error_text],
                logs := st.logs + 1 } := by
  simp [create_password_node, hacct, hcreate, Nat.not_lt.mpr hlen]

/-- Witness for the amended C5. -/
theorem C5_create_password_failure_amended_witness :
    create_password_node c5_env c5_state "secret1" =
      { c5_state with lastText := "",
                      options := create_password_init_options,
                      msgs := c5_state.msgs ++ [unexpected_error_text],
                      logs := c5_state.logs + 1 } :=
  C5_create_password_failure_amended c5_env c5_state "secret1" "database exploded"
    "alice" rfl rfl (by decide)

/-! ### C6 — ValidateAccount has no attempt cap (corrected) -/

def c6_account : Account := ⟨"carol", "pw", "carol@x.fr", false, false, some "1234"⟩

def c6_env : Env := ⟨"1.2.3.4", [], fun _ => true, Except.ok true⟩

def c6_state : SessionState :=
  { init_state [c6_account] [] with
      mt := ⟨some "carol", none, none⟩,
      options := [⟨"_default", none, Node.validate_account⟩] }

/-- Counterexample to C6 as stated: three wrong validation codes in a row
leave the session active on the same prompt (a fourth attempt is offered),
with no failed-attempt counted and no lockout. -/
theorem C6_counterexample :
    (run c6_env c6_state ["0000", "0000", "0000"]).status = SessionStatus.active ∧
    (run c6_env c6_state ["0000", "0000", "0000"]).options =
      [⟨"_default", none, Node.validate_account⟩] ∧
    (run c6_env c6_state ["0000", "0000", "0000"]).authFails = 0 ∧
    pa (run c6_env c6_state ["0000", "0000", "0000"]) = 0 := by
  decide

/-- C6 amended: at ValidateAccount a mismatched code only redisplays the
error and retries the same node; it is not counted toward the
password-failure cap and never causes a lockout — the session state is
unchanged apart from the prompt. -/
theorem C6_validate_account_no_cap_amended (st : SessionState) (inp nm : String)
    (a : Account)
    (hacct : st.mt.account = some nm)
    (ha : get_account_from_name st.dir nm = some a)
    (hcode : a.validation_code ≠ some (strip inp)) :
    validate_account_node st inp =
      { st with lastText := wrong_code_text (strip inp),
                options := [⟨"_default", none, Node.validate_account⟩] } := by
  simp [validate_account_node, hacct, ha, bne_iff_ne.mpr hcode]

/-- Witness for the amended C6. -/
theorem C6_validate_account_no_cap_amended_witness :
    validate_account_node c6_state "0000" =
      { c6_state with lastText := wrong_code_text (strip "0000"),
                      options := [⟨"_default", none, Node.validate_account⟩] } :=
  C6_validate_account_no_cap_amended c6_state "0000" "carol" c6_account
    rfl (by decide) (by decide)

/-! ### C1 — three wrong passwords disconnect -/

/-- At a state whose options are the password options, any input other than
`"r"` falls through to the `ask_password` handler. -/
theorem step_password_options (env : Env) (st : SessionState) (w : String)
    (hst : st.status = SessionStatus.active)
    (hopts : st.options = password_options)
    (hr : lower (strip w) ≠ "r") :
    step env st w = ask_password_node env st w := by
  have hbeq : ("r" == lower (strip w)) = false :=
    beq_eq_false_iff_ne.mpr (Ne.symm hr)
  have h1 : find_option password_options w = none := by
    simp [find_option, password_options, hbeq]
  unfold step
  rw [hst, hopts, h1]
  simp [password_options, node_call, find_option]

/-- The mismatch branch of `ask_password`: increment or disconnect. -/
theorem ask_password_wrong (env : Env) (st : SessionState) (w nm : String)
    (a : Account)
    (hacct : st.mt.account = some nm)
    (ha : get_account_from_name st.dir nm = some a)
    (hwrong : strip w ≠ a.password) :
    ask_password_node env st w =
      if pa st + 1 > 2 then
        { st with status := SessionStatus.disconnected lockout_text,
                  lastText := "", options := [], authFails := st.authFails + 1 }
      else
        { st with mt := { st.mt with password_attempts := some (pa st + 1) },
                  lastText := wrong_password_text,
                  options := password_options,
                  authFails := st.authFails + 1 } := by
  simp [ask_password_node, hacct, ha, bne_iff_ne.mpr hwrong, pa]

/-- A terminated session accepts no further input. -/
theorem step_not_active (env : Env) (st : SessionState) (i : String)
    (h : st.status ≠ SessionStatus.active) :
    step env st i = st := by
  unfold step
  cases hs : st.status with
  | active => exact absurd hs h
  | disconnected m => rfl
  | loggedIn n => rfl

/-- C1: for a session at AskPassword on a resolved account with
`validationState` Valid and a fresh attempt counter, each wrong password
increments `passwordAttempts`; the first two failures redisplay the error
with the default option looping to AskPassword and the `"r"` option
returning to Start re-enabling echo, and the third failure forcibly
disconnects with the lockout message — after which no fourth prompt is
processed. -/
theorem C1_three_wrong_passwords_lock_out (env : Env) (st : SessionState)
    (nm : String) (a : Account) (w1 w2 w3 w4 : String)
    (hacct : st.mt.account = some nm)
    (ha : get_account_from_name st.dir nm = some a)
    (_hvalid : a.valid = true)
    (hst : st.status = SessionStatus.active)
    (hopts : st.options = password_options)
    (hpa : st.mt.password_attempts = none)
    (h1 : strip w1 ≠ a.password) (h1r : lower (strip w1) ≠ "r")
    (h2 : strip w2 ≠ a.password) (h2r : lower (strip w2) ≠ "r")
    (h3 : strip w3 ≠ a.password) (h3r : lower (strip w3) ≠ "r") :
    (step env st w1).status = SessionStatus.active ∧
    pa (step env st w1) = 1 ∧
    (step env st w1).options = password_options ∧
    (step env st w1).lastText = wrong_password_text ∧
    (step env (step env st w1) w2).status = SessionStatus.active ∧
    pa (step env (step env st w1) w2) = 2 ∧
    (step env (step env st w1) w2).options = password_options ∧
    (step env (step env (step env st w1) w2) w3).status =
      SessionStatus.disconnected lockout_text ∧
    step env (step env (step env (step env st w1) w2) w3) w4 =
      step env (step env (step env st w1) w2) w3 := by
  have hpa0 : pa st = 0 := by simp [pa, hpa]
  have e1 : step env st w1 =
      { st with mt := { st.mt with password_attempts := some 1 },
                lastText := wrong_password_text,
                options := password_options,
                authFails := st.authFails + 1 } := by
    rw [step_password_options env st w1 hst hopts h1r,
        ask_password_wrong env st w1 nm a hacct ha h1, hpa0]
    simp
  set st1 : SessionState :=
    { st with mt := { st.mt with password_attempts := some 1 },
              lastText := wrong_password_text,
              options := password_options,
              authFails := st.authFails + 1 } with hst1
  have e2 : step env st1 w2 =
      { st1 with mt := { st1.mt with password_attempts := some 2 },
                 lastText := wrong_password_text,
                 options := password_options,
                 authFails := st1.authFails + 1 } := by
    rw [step_password_options env st1 w2 hst rfl h2r,
        ask_password_wrong env st1 w2 nm a hacct ha h2]
    simp [pa]
  set st2 : SessionState :=
    { st1 with mt := { st1.mt with password_attempts := some 2 },
               lastText := wrong_password_text,
               options := password_options,
               authFails := st1.authFails + 1 } with hst2
  have e3 : step env st2 w3 =
      { st2 with status := SessionStatus.disconnected lockout_text,
                 lastText := "", options := [],
                 authFails := st2.authFails + 1 } := by
    rw [step_password_options env st2 w3 hst rfl h3r,
        ask_password_wrong env st2 w3 nm a hacct ha h3]
    simp [pa]
  set st3 : SessionState :=
    { st2 with status := SessionStatus.disconnected lockout_text,
               lastText := "", options := [],
               authFails := st2.authFails + 1 } with hst3
  have e4 : step env st3 w4 = st3 :=
    step_not_active env st3 w4 (by simp [hst3])
  rw [e1, e2, e3, e4]
  refine ⟨hst, rfl, rfl, rfl, hst, rfl, rfl, rfl, rfl⟩

def c1_account : Account := ⟨"carol", "secret", "carol@x.fr", true, false, none⟩

def c1_env : Env := ⟨"1.2.3.4", [], fun _ => true, Except.ok true⟩

def c1_state : SessionState :=
  { init_state [c1_account] [] with
      mt := ⟨some "carol", none, none⟩,
      options := password_options, echo := false }

/-- Witness for C1: the third wrong password disconnects the session at a
concrete valid account, and a fourth input changes nothing. -/
theorem C1_three_wrong_passwords_lock_out_witness :
    (step c1_env c1_state "aaa").status = SessionStatus.active ∧
    pa (step c1_env c1_state "aaa") = 1 ∧
    (step c1_env (step c1_env c1_state "aaa") "bbb").status =
      SessionStatus.active ∧
    pa (step c1_env (step c1_env c1_state "aaa") "bbb") = 2 ∧
    (step c1_env (step c1_env (step c1_env c1_state "aaa") "bbb") "ccc").status =
      SessionStatus.disconnected lockout_text ∧
    step c1_env (step c1_env (step c1_env (step c1_env c1_state "aaa") "bbb") "ccc")
        "ddd" =
      step c1_env (step c1_env (step c1_env c1_state "aaa") "bbb") "ccc" := by
  have h := C1_three_wrong_passwords_lock_out c1_env c1_state "carol" c1_account
    "aaa" "bbb" "ccc" "ddd" rfl (by decide) (by decide) rfl rfl rfl
    (by decide) (by decide) (by decide) (by decide) (by decide) (by decide)
  exact ⟨h.1, h.2.1, h.2.2.2.2.1, h.2.2.2.2.2.1, h.2.2.2.2.2.2.2.1,
    h.2.2.2.2.2.2.2.2⟩

/-! ### C10 — CheckTemporaryPassword offers no "r" option -/

/-- The mismatch branch of `check_temporary_password`. -/
theorem check_temp_wrong (st : SessionState) (w nm : String) (a : Account)
    (hacct : st.mt.account = some nm)
    (ha : get_account_from_name st.dir nm = some a)
    (hwrong : strip w ≠ a.password) :
    check_temporary_password_node st w =
      if pa st + 1 > 2 then
        { st with status := SessionStatus.disconnected lockout_text,
                  lastText := "", options := [], authFails := st.authFails + 1 }
      else
        { st with mt := { st.mt with password_attempts := some (pa st + 1) },
                  lastText := wrong_password_text,
                  options := [⟨"_default", none, Node.check_temporary_password⟩],
                  authFails := st.authFails + 1 } := by
  simp [check_temporary_password_node, hacct, ha, bne_iff_ne.mpr hwrong, pa]

/-- C10: after a mismatch at CheckTemporaryPassword with at most 2
accumulated failures, the returned option set contains only the default
loop back to CheckTemporaryPassword — no `"r"` option — although the
displayed error text still invites entering `"r"`; consequently a
subsequent `"r"` input is compared as a temporary-password attempt and,
not matching, is counted as one more failure. -/
theorem C10_check_temp_r_is_an_attempt (env : Env) (st : SessionState)
    (inp nm : String) (a : Account)
    (hacct : st.mt.account = some nm)
    (ha : get_account_from_name st.dir nm = some a)
    (hst : st.status = SessionStatus.active)
    (hwrong : strip inp ≠ a.password) (hr : a.password ≠ "r")
    (hpa : pa st ≤ 1) :
    (check_temporary_password_node st inp).options =
      [⟨"_default", none, Node.check_temporary_password⟩] ∧
    (check_temporary_password_node st inp).lastText = wrong_password_text ∧
    "|yr|n".data <:+: wrong_password_text.data ∧
    pa (check_temporary_password_node st inp) = pa st + 1 ∧
    (check_temporary_password_node st inp).status = SessionStatus.active ∧
    (step env (check_temporary_password_node st inp) "r").authFails =
      (check_temporary_password_node st inp).authFails + 1 := by
  have hcase : ¬ (pa st + 1 > 2) := by omega
  have hres : check_temporary_password_node st inp =
      { st with mt := { st.mt with password_attempts := some (pa st + 1) },
                lastText := wrong_password_text,
                options := [⟨"_default", none, Node.check_temporary_password⟩],
                authFails := st.authFails + 1 } := by
    rw [check_temp_wrong st inp nm a hacct ha hwrong]
    simp [hcase]
  rw [hres]
  refine ⟨rfl, rfl, by decide, by simp [pa], hst, ?_⟩
  set st1 : SessionState :=
    { st with mt := { st.mt with password_attempts := some (pa st + 1) },
              lastText := wrong_password_text,
              options := [⟨"_default", none, Node.check_temporary_password⟩],
              authFails := st.authFails + 1 } with hst1
  have hfind : find_option st1.options "r" = none := by
    simp [find_option]
  have hdef : st1.options.find? (fun o => o.key == "_default") =
      some ⟨"_default", none, Node.check_temporary_password⟩ := by
    simp [hst1]
  have hrw : strip "r" ≠ a.password := by
    intro hcontra
    exact hr (by rw [← hcontra]; rfl)
  have hstep : step env st1 "r" = check_temporary_password_node st1 "r" := by
    unfold step
    rw [hst, hfind, hdef]
    rfl
  rw [hstep, check_temp_wrong st1 "r" nm a hacct ha hrw]
  have hpa1 : pa st1 = pa st + 1 := by simp [pa]
  by_cases hgt : pa st1 + 1 > 2
  · simp [hgt]
  · simp [hgt]

def c10_account : Account := ⟨"leg", "bcefhi", "leg@x.fr", false, true, none⟩

def c10_env : Env := ⟨"1.2.3.4", [], fun _ => true, Except.ok true⟩

def c10_state : SessionState :=
  { init_state [c10_account] [] with
      mt := ⟨some "leg", none, none⟩,
      options := [⟨"_default", none, Node.check_temporary_password⟩] }

/-- Witness for C10 at a concrete recovery session. -/
theorem C10_check_temp_r_is_an_attempt_witness :
    (check_temporary_password_node c10_state "zzz").options =
      [⟨"_default", none, Node.check_temporary_password⟩] ∧
    (step c10_env (check_temporary_password_node c10_state "zzz") "r").authFails =
      (check_temporary_password_node c10_state "zzz").authFails + 1 := by
  have h := C10_check_temp_r_is_an_attempt c10_env c10_state "zzz" "leg" c10_account
    rfl (by decide) rfl (by decide) (by decide) (by decide)
  exact ⟨h.1, h.2.2.2.2.2⟩

/-! ### C9 — the attempt counter is monotone and caps total failures -/

theorem pa_start (st : SessionState) : pa (start_node st) = pa st := rfl

theorem pa_create_account (st : SessionState) :
    pa (create_account_node st) = pa st := rfl

theorem pa_quit (st : SessionState) : pa (quit_node st) = pa st := rfl

theorem pa_username (st : SessionState) (i : String) :
    pa (username_node st i) = pa st := by
  simp only [username_node]
  split
  · rfl
  · split
    · rfl
    · split <;> rfl

theorem pa_create_username (st : SessionState) (i : String) :
    pa (create_username_node st i) = pa st := by
  simp only [create_username_node]
  split
  · rfl
  · split <;> rfl

theorem pa_create_password (env : Env) (st : SessionState) (i : String) :
    pa (create_password_node env st i) = pa st := by
  simp only [create_password_node]
  split
  · rfl
  · split
    · rfl
    · split <;> rfl

theorem pa_create_email (st : SessionState) (i : String) :
    pa (create_email_address_node st i) = pa st := by
  simp only [create_email_address_node]
  split
  · rfl
  · split
    · rfl
    · split <;> rfl

theorem pa_validate (st : SessionState) (i : String) :
    pa (validate_account_node st i) = pa st := by
  simp only [validate_account_node]
  split
  · rfl
  · split
    · rfl
    · split <;> rfl

theorem pa_change_temp (env : Env) (st : SessionState) (i : String) :
    pa (change_temporary_password_node env st i) = pa st := by
  simp only [change_temporary_password_node]
  split
  · rfl
  · split
    · rfl
    · split <;> rfl

theorem pa_ask_password_mono (env : Env) (st : SessionState) (i : String) :
    pa (ask_password_node env st i) = pa st ∨
    pa (ask_password_node env st i) = pa st + 1 := by
  simp only [ask_password_node]
  split
  · exact Or.inl rfl
  · split
    · exact Or.inl rfl
    · split
      · split
        · exact Or.inl rfl
        · exact Or.inr rfl
      · split
        · exact Or.inl rfl
        · split
          · exact Or.inl rfl
          · split
            · exact Or.inl rfl
            · exact Or.inl rfl

theorem pa_check_temp_mono (st : SessionState) (i : String) :
    pa (check_temporary_password_node st i) = pa st ∨
    pa (check_temporary_password_node st i) = pa st + 1 := by
  simp only [check_temporary_password_node]
  split
  · exact Or.inl rfl
  · split
    · exact Or.inl rfl
    · split
      · split
        · exact Or.inl rfl
        · exact Or.inr rfl
      · exact Or.inl rfl

/-- No node handler ever decreases the stored attempt counter. -/
theorem pa_node_call_mono (env : Env) (st : SessionState) (n : Node) (i : String) :
    pa st ≤ pa (node_call env st n i) := by
  cases n with
  | start => exact Nat.le_of_eq (pa_start st).symm
  | username => exact Nat.le_of_eq (pa_username st i).symm
  | ask_password =>
      show pa st ≤ pa (ask_password_node env st i)
      rcases pa_ask_password_mono env st i with h | h <;> omega
  | create_account => exact Nat.le_of_eq (pa_create_account st).symm
  | create_username => exact Nat.le_of_eq (pa_create_username st i).symm
  | create_password => exact Nat.le_of_eq (pa_create_password env st i).symm
  | create_email_address => exact Nat.le_of_eq (pa_create_email st i).symm
  | validate_account => exact Nat.le_of_eq (pa_validate st i).symm
  | quit => exact Nat.le_of_eq (pa_quit st).symm
  | check_temporary_password =>
      show pa st ≤ pa (check_temporary_password_node st i)
      rcases pa_check_temp_mono st i with h | h <;> omega
  | change_temporary_password => exact Nat.le_of_eq (pa_change_temp env st i).symm

/-- Characterization of `step` on an active session. -/
theorem step_active (env : Env) (st : SessionState) (i : String)
    (hs : st.status = SessionStatus.active) :
    step env st i =
      match find_option st.options i with
      | some o =>
          node_call env
            (match o.echoExec with
             | some b => { st with echo := b }
             | none => st) o.goto i
      | none =>
        match st.options.find? (fun o => o.key == "_default") with
        | some o => node_call env st o.goto i
        | none => st := by
  unfold step
  rw [hs]

/-- No engine round ever decreases the stored attempt counter: it survives
a return to Start via `"r"` and the resolution of a different account. -/
theorem pa_step_mono (env : Env) (st : SessionState) (i : String) :
    pa st ≤ pa (step env st i) := by
  cases hs : st.status with
  | active =>
    rw [step_active env st i hs]
    cases hf : find_option st.options i with
    | some o =>
      show pa st ≤ pa (node_call env
        (match o.echoExec with
         | some b => { st with echo := b }
         | none => st) o.goto i)
      cases he : o.echoExec with
      | some b => exact pa_node_call_mono env { st with echo := b } o.goto i
      | none => exact pa_node_call_mono env st o.goto i
    | none =>
      show pa st ≤ pa (match st.options.find? (fun o => o.key == "_default") with
        | some o => node_call env st o.goto i
        | none => st)
      cases hd : st.options.find? (fun o => o.key == "_default") with
      | some o => exact pa_node_call_mono env st o.goto i
      | none => exact Nat.le_refl _
  | disconnected m =>
    rw [step_not_active env st i (by simp [hs])]
  | loggedIn n =>
    rw [step_not_active env st i (by simp [hs])]

/-- The session invariant: the ghost count of failed gated comparisons is
at most 3, and while the session is still active it equals the stored
attempt counter, which is at most 2. -/
def Inv (st : SessionState) : Prop :=
  st.authFails ≤ 3 ∧
    (st.status = SessionStatus.active → st.authFails = pa st ∧ pa st ≤ 2)

theorem inv_username (st : SessionState) (i : String) (h : Inv st) :
    Inv (username_node st i) := by
  simp only [username_node]
  split
  · exact h
  · split
    · exact h
    · split <;> exact h

theorem inv_create_username (st : SessionState) (i : String) (h : Inv st) :
    Inv (create_username_node st i) := by
  simp only [create_username_node]
  split
  · exact h
  · split <;> exact h

theorem inv_create_password (env : Env) (st : SessionState) (i : String)
    (h : Inv st) : Inv (create_password_node env st i) := by
  simp only [create_password_node]
  split
  · exact h
  · split
    · exact h
    · split <;> exact h

theorem inv_create_email (st : SessionState) (i : String) (h : Inv st) :
    Inv (create_email_address_node st i) := by
  simp only [create_email_address_node]
  split
  · exact h
  · split
    · exact h
    · split <;> exact h

theorem inv_validate (st : SessionState) (i : String) (h : Inv st) :
    Inv (validate_account_node st i) := by
  simp only [validate_account_node]
  split
  · exact h
  · split
    · exact h
    · split
      · exact h
      · exact ⟨h.1, fun hc => absurd hc (by simp)⟩

theorem inv_change_temp (env : Env) (st : SessionState) (i : String) (h : Inv st) :
    Inv (change_temporary_password_node env st i) := by
  simp only [change_temporary_password_node]
  split
  · exact h
  · split
    · exact h
    · split
      · exact ⟨h.1, fun hc => absurd hc (by simp)⟩
      · exact h

theorem inv_quit (st : SessionState) (h : Inv st) : Inv (quit_node st) :=
  ⟨h.1, fun hc => absurd hc (by simp [quit_node])⟩

theorem inv_ask_password (env : Env) (st : SessionState) (i : String)
    (h : Inv st) (hact : st.status = SessionStatus.active) :
    Inv (ask_password_node env st i) := by
  obtain ⟨h1, h2⟩ := h
  obtain ⟨hA, hP⟩ := h2 hact
  simp only [pa] at hA hP
  simp only [ask_password_node]
  split
  · exact ⟨h1, fun _ => ⟨hA, hP⟩⟩
  · split
    · exact ⟨h1, fun _ => ⟨hA, hP⟩⟩
    · split
      · split
        · refine ⟨?_, fun hc => absurd hc (by simp)⟩
          show st.authFails + 1 ≤ 3
          omega
        · rename_i hgt
          refine ⟨?_, fun _ => ⟨?_, ?_⟩⟩
          · show st.authFails + 1 ≤ 3
            omega
          · show st.authFails + 1 =
              (some (st.mt.password_attempts.getD 0 + 1)).getD 0
            simp
            omega
          · show (some (st.mt.password_attempts.getD 0 + 1)).getD 0 ≤ 2
            simp
            omega
      · split
        · exact ⟨h1, fun hc => absurd hc (by simp)⟩
        · split
          · exact ⟨h1, fun _ => ⟨hA, hP⟩⟩
          · split
            · exact ⟨h1, fun _ => ⟨hA, hP⟩⟩
            · exact ⟨h1, fun hc => absurd hc (by simp)⟩

theorem inv_check_temp (st : SessionState) (i : String)
    (h : Inv st) (hact : st.status = SessionStatus.active) :
    Inv (check_temporary_password_node st i) := by
  obtain ⟨h1, h2⟩ := h
  obtain ⟨hA, hP⟩ := h2 hact
  simp only [pa] at hA hP
  simp only [check_temporary_password_node]
  split
  · exact ⟨h1, fun _ => ⟨hA, hP⟩⟩
  · split
    · exact ⟨h1, fun _ => ⟨hA, hP⟩⟩
    · split
      · split
        · refine ⟨?_, fun hc => absurd hc (by simp)⟩
          show st.authFails + 1 ≤ 3
          omega
        · rename_i hgt
          refine ⟨?_, fun _ => ⟨?_, ?_⟩⟩
          · show st.authFails + 1 ≤ 3
            omega
          · show st.authFails + 1 =
              (some (st.mt.password_attempts.getD 0 + 1)).getD 0
            simp
            omega
          · show (some (st.mt.password_attempts.getD 0 + 1)).getD 0 ≤ 2
            simp
            omega
      · exact ⟨h1, fun _ => ⟨hA, hP⟩⟩

theorem inv_node_call (env : Env) (st : SessionState) (n : Node) (i : String)
    (h : Inv st) (hact : st.status = SessionStatus.active) :
    Inv (node_call env st n i) := by
  cases n with
  | start => exact h
  | username => exact inv_username st i h
  | ask_password => exact inv_ask_password env st i h hact
  | create_account => exact h
  | create_username => exact inv_create_username st i h
  | create_password => exact inv_create_password env st i h
  | create_email_address => exact inv_create_email st i h
  | validate_account => exact inv_validate st i h
  | quit => exact inv_quit st h
  | check_temporary_password => exact inv_check_temp st i h hact
  | change_temporary_password => exact inv_change_temp env st i h

theorem inv_step (env : Env) (st : SessionState) (i : String) (h : Inv st) :
    Inv (step env st i) := by
  cases hs : st.status with
  | active =>
    rw [step_active env st i hs]
    cases hf : find_option st.options i with
    | some o =>
      show Inv (node_call env
        (match o.echoExec with
         | some b => { st with echo := b }
         | none => st) o.goto i)
      cases he : o.echoExec with
      | some b => exact inv_node_call env { st with echo := b } o.goto i h hs
      | none => exact inv_node_call env st o.goto i h hs
    | none =>
      show Inv (match st.options.find? (fun o => o.key == "_default") with
        | some o => node_call env st o.goto i
        | none => st)
      cases hd : st.options.find? (fun o => o.key == "_default") with
      | some o => exact inv_node_call env st o.goto i h hs
      | none => exact h
  | disconnected m =>
    rw [step_not_active env st i (by simp [hs])]
    exact h
  | loggedIn n =>
    rw [step_not_active env st i (by simp [hs])]
    exact h

theorem inv_run (env : Env) (inputs : List String) (st : SessionState)
    (h : Inv st) : Inv (run env st inputs) := by
  induction inputs generalizing st with
  | nil => exact h
  | cons a l ih => exact ih (step env st a) (inv_step env st a h)

/-- C9: within one session the `password_attempts` counter starts absent
(read as 0) and no engine round ever decreases it — it is shared between
AskPassword and CheckTemporaryPassword and survives a return to Start and
the resolution of a different account — and the total number of failed
password/temporary-password comparisons in any run is at most 3. -/
theorem C9_attempt_counter_monotone_and_capped :
    (∀ (env : Env) (st : SessionState) (i : String), pa st ≤ pa (step env st i)) ∧
    (∀ (dir : List Account) (rng : List Nat), pa (init_state dir rng) = 0) ∧
    (∀ (env : Env) (dir : List Account) (rng : List Nat) (inputs : List String),
      (run env (init_state dir rng) inputs).authFails ≤ 3) := by
  refine ⟨pa_step_mono, fun dir rng => rfl, fun env dir rng inputs => ?_⟩
  have hinit : Inv (init_state dir rng) := by
    constructor
    · show (0 : Nat) ≤ 3
      omega
    · intro _
      exact ⟨rfl, by show (0 : Nat) ≤ 2; omega⟩
  exact (inv_run env inputs _ hinit).1

/-! ### C3 — reachability invariant: Valid before the normal login -/

/-- The guarantee the Username routing gives about every account handed in
to AskPassword: if it has an e-mail on file and no pending validation code
(the guard of the direct login branch of `ask_password`), it is Valid. -/
def account_ok (a : Account) : Prop :=
  a.email ≠ "" → a.validation_code = none → a.valid = true

/-- Every option routing into AskPassword resolves the stored pending
account, and that account satisfies `account_ok`. -/
def ask_route_ok (st : SessionState) : Prop :=
  ∀ o ∈ st.options, o.goto = Node.ask_password →
    ∃ nm a, st.mt.account = some nm ∧
      get_account_from_name st.dir nm = some a ∧ account_ok a

/-- A logged-in session holds a Valid account in the directory. -/
def logged_in_valid (st : SessionState) : Prop :=
  ∀ nm, st.status = SessionStatus.loggedIn nm →
    ∃ a, get_account_from_name st.dir nm = some a ∧ a.valid = true

/-- The reachability invariant behind C3, preserved by every engine round. -/
def LoginInv (st : SessionState) : Prop :=
  ask_route_ok st ∧ logged_in_valid st

theorem ask_route_ok_of_no_ask {st : SessionState}
    (hno : st.options.all (fun o => o.goto != Node.ask_password) = true) :
    ask_route_ok st := by
  intro o ho hg
  have h1 := List.all_eq_true.mp hno o ho
  rw [hg] at h1
  simp at h1

theorem logged_in_valid_of_active {st : SessionState}
    (h : st.status = SessionStatus.active) : logged_in_valid st := by
  intro nm hl
  rw [h] at hl
  exact absurd hl (by simp)

theorem logged_in_valid_of_disconnected {st : SessionState} {m : String}
    (h : st.status = SessionStatus.disconnected m) : logged_in_valid st := by
  intro nm hl
  rw [h] at hl
  exact absurd hl (by simp)

theorem login_inv_start (st : SessionState)
    (hstat : st.status = SessionStatus.active) : LoginInv (start_node st) :=
  ⟨ask_route_ok_of_no_ask rfl, logged_in_valid_of_active hstat⟩

theorem login_inv_create_account (st : SessionState)
    (hstat : st.status = SessionStatus.active) :
    LoginInv (create_account_node st) :=
  ⟨ask_route_ok_of_no_ask rfl, logged_in_valid_of_active hstat⟩

theorem login_inv_quit (st : SessionState) : LoginInv (quit_node st) :=
  ⟨ask_route_ok_of_no_ask rfl, logged_in_valid_of_disconnected rfl⟩

/-- The Username handler re-establishes the invariant: its only options
routing into AskPassword come from the else branch, whose guard forces
`account_ok` on the resolved account. -/
theorem login_inv_username (st : SessionState) (i : String)
    (hstat : st.status = SessionStatus.active) :
    LoginInv (username_node st i) := by
  cases hA : get_account_from_name st.dir (strip i) with
  | none =>
      simp only [username_node, hA]
      exact ⟨ask_route_ok_of_no_ask rfl, logged_in_valid_of_active hstat⟩
  | some a0 =>
      simp only [username_node, hA]
      by_cases hb1 : (a0.email != "" &&
          !(a0.valid || a0.sent_validation || a0.validation_code.isSome)) = true
      · rw [if_pos hb1]
        exact ⟨ask_route_ok_of_no_ask rfl, logged_in_valid_of_active hstat⟩
      · rw [if_neg hb1]
        by_cases hb2 : (!a0.valid && a0.sent_validation) = true
        · rw [if_pos hb2]
          exact ⟨ask_route_ok_of_no_ask rfl, logged_in_valid_of_active hstat⟩
        · rw [if_neg hb2]
          refine ⟨?_, logged_in_valid_of_active hstat⟩
          intro o ho hg
          refine ⟨a0.name, a0, rfl, lookup_self hA, ?_⟩
          intro he hc
          cases hv : a0.valid
          · exfalso
            rw [Bool.not_eq_true] at hb1 hb2
            simp [hv, hc, bne_iff_ne.mpr he] at hb1 hb2
            simp [hb1] at hb2
          · rfl

/-- The AskPassword handler preserves the invariant: its retry options
carry over the resolved account's guarantee, and its direct login branch
fires only under the guard that `account_ok` turns into validity. -/
theorem login_inv_ask (env : Env) (st : SessionState) (i : String)
    (hstat : st.status = SessionStatus.active) (nm0 : String) (a : Account)
    (hacct : st.mt.account = some nm0)
    (ha : get_account_from_name st.dir nm0 = some a)
    (hok : account_ok a) :
    LoginInv (ask_password_node env st i) := by
  simp only [ask_password_node, hacct, ha]
  split
  · split
    · exact ⟨ask_route_ok_of_no_ask rfl, logged_in_valid_of_disconnected rfl⟩
    · exact ⟨fun _ _ _ => ⟨nm0, a, rfl, ha, hok⟩,
        logged_in_valid_of_active hstat⟩
  · split
    · exact ⟨ask_route_ok_of_no_ask rfl, logged_in_valid_of_disconnected rfl⟩
    · split
      · exact ⟨ask_route_ok_of_no_ask rfl, logged_in_valid_of_active hstat⟩
      · split
        · exact ⟨ask_route_ok_of_no_ask rfl, logged_in_valid_of_active hstat⟩
        · rename_i he hc
          refine ⟨ask_route_ok_of_no_ask rfl, ?_⟩
          intro nm1 hl
          have hinj : SessionStatus.loggedIn a.name =
              SessionStatus.loggedIn nm1 := hl
          injection hinj with hnm
          subst hnm
          refine ⟨a, lookup_self ha, ?_⟩
          refine hok (fun heq => he ?_) (Option.not_isSome_iff_eq_none.mp hc)
          rw [heq]
          rfl

theorem login_inv_create_username (st : SessionState) (i : String)
    (hstat : st.status = SessionStatus.active) :
    LoginInv (create_username_node st i) := by
  simp only [create_username_node]
  split
  · exact ⟨ask_route_ok_of_no_ask rfl, logged_in_valid_of_active hstat⟩
  · split
    · exact ⟨ask_route_ok_of_no_ask rfl, logged_in_valid_of_active hstat⟩
    · exact ⟨ask_route_ok_of_no_ask rfl, logged_in_valid_of_active hstat⟩

theorem login_inv_create_password (env : Env) (st : SessionState) (i : String)
    (hstat : st.status = SessionStatus.active) (h : LoginInv st) :
    LoginInv (create_password_node env st i) := by
  simp only [create_password_node]
  split
  · exact h
  · split
    · exact ⟨ask_route_ok_of_no_ask rfl, logged_in_valid_of_active hstat⟩
    · split
      · exact ⟨ask_route_ok_of_no_ask rfl, logged_in_valid_of_active hstat⟩
      · exact ⟨ask_route_ok_of_no_ask rfl, logged_in_valid_of_active hstat⟩

theorem login_inv_create_email (st : SessionState) (i : String)
    (hstat : st.status = SessionStatus.active) (h : LoginInv st) :
    LoginInv (create_email_address_node st i) := by
  simp only [create_email_address_node]
  split
  · exact h
  · split
    · exact h
    · split
      · exact ⟨ask_route_ok_of_no_ask rfl, logged_in_valid_of_active hstat⟩
      · exact ⟨ask_route_ok_of_no_ask rfl, logged_in_valid_of_active hstat⟩

/-- The ValidateAccount handler preserves the invariant; its login branch
marks the account Valid in the directory before the hand-off. -/
theorem login_inv_validate (st : SessionState) (i : String)
    (hstat : st.status = SessionStatus.active) (h : LoginInv st) :
    LoginInv (validate_account_node st i) := by
  cases hacct : st.mt.account with
  | none =>
      have hid : validate_account_node st i = st := by
        simp [validate_account_node, hacct]
      rw [hid]
      exact h
  | some nm0 =>
    cases ha : get_account_from_name st.dir nm0 with
    | none =>
        have hid : validate_account_node st i = st := by
          simp [validate_account_node, hacct, ha]
        rw [hid]
        exact h
    | some a2 =>
      by_cases hm : (a2.validation_code != some (strip i)) = true
      · have hres : validate_account_node st i =
            { st with lastText := wrong_code_text (strip i),
                      options := [⟨"_default", none, Node.validate_account⟩] } := by
          simp [validate_account_node, hacct, ha, hm]
        rw [hres]
        exact ⟨ask_route_ok_of_no_ask rfl, logged_in_valid_of_active hstat⟩
      · rw [Bool.not_eq_true] at hm
        have hres : validate_account_node st i =
            { st with
                dir := update_account st.dir a2.name
                  (fun x => { x with valid := true, validation_code := none }),
                msgs := st.msgs ++ [welcome_text],
                lastText := "", options := [],
                status := SessionStatus.loggedIn a2.name } := by
          simp [validate_account_node, hacct, ha, hm]
        rw [hres]
        refine ⟨ask_route_ok_of_no_ask rfl, ?_⟩
        intro nm1 hl
        have hinj : SessionStatus.loggedIn a2.name =
            SessionStatus.loggedIn nm1 := hl
        injection hinj with hnm
        subst hnm
        refine ⟨{ a2 with valid := true, validation_code := none }, ?_, rfl⟩
        show get_account_from_name _ a2.name = _
        rw [lookup_update _ a2.name a2.name
            (fun x => { x with valid := true, validation_code := none })
            (fun x => rfl),
          lookup_self ha]
        simp

theorem login_inv_check_temp (st : SessionState) (i : String)
    (hstat : st.status = SessionStatus.active) (h : LoginInv st) :
    LoginInv (check_temporary_password_node st i) := by
  simp only [check_temporary_password_node]
  split
  · exact h
  · split
    · exact h
    · split
      · split
        · exact ⟨ask_route_ok_of_no_ask rfl, logged_in_valid_of_disconnected rfl⟩
        · exact ⟨ask_route_ok_of_no_ask rfl, logged_in_valid_of_active hstat⟩
      · exact ⟨ask_route_ok_of_no_ask rfl, logged_in_valid_of_active hstat⟩

/-- The ChangeTemporaryPassword handler preserves the invariant; its login
branch marks the account Valid in the directory before the hand-off. -/
theorem login_inv_change_temp (env : Env) (st : SessionState) (i : String)
    (hstat : st.status = SessionStatus.active) (h : LoginInv st) :
    LoginInv (change_temporary_password_node env st i) := by
  cases hacct : st.mt.account with
  | none =>
      have hid : change_temporary_password_node env st i = st := by
        simp [change_temporary_password_node, hacct]
      rw [hid]
      exact h
  | some nm0 =>
    cases ha : get_account_from_name st.dir nm0 with
    | none =>
        have hid : change_temporary_password_node env st i = st := by
          simp [change_temporary_password_node, hacct, ha]
        rw [hid]
        exact h
    | some a2 =>
      by_cases hp : env.validate_password (strip i) = true
      · have hres : change_temporary_password_node env st i =
            { st with
                dir := update_account st.dir a2.name
                  (fun x => { x with password := strip i, valid := true }),
                echo := true, lastText := "", options := [],
                status := SessionStatus.loggedIn a2.name } := by
          simp [change_temporary_password_node, hacct, ha, hp]
        rw [hres]
        refine ⟨ask_route_ok_of_no_ask rfl, ?_⟩
        intro nm1 hl
        have hinj : SessionStatus.loggedIn a2.name =
            SessionStatus.loggedIn nm1 := hl
        injection hinj with hnm
        subst hnm
        refine ⟨{ a2 with password := strip i, valid := true }, ?_, rfl⟩
        show get_account_from_name _ a2.name = _
        rw [lookup_update _ a2.name a2.name
            (fun x => { x with password := strip i, valid := true })
            (fun x => rfl),
          lookup_self ha]
        simp
      · have hres : change_temporary_password_node env st i =
            { st with lastText := change_password_invalid_text,
                      options :=
                        [⟨"_default", none, Node.change_temporary_password⟩] } := by
          simp [change_temporary_password_node, hacct, ha, hp]
        rw [hres]
        exact ⟨ask_route_ok_of_no_ask rfl, logged_in_valid_of_active hstat⟩

/-- Dispatch of the invariant preservation: an AskPassword call is only
made through an option whose `ask_route_ok` fact is supplied. -/
theorem login_inv_node_call (env : Env) (st : SessionState) (n : Node)
    (i : String) (h : LoginInv st) (hstat : st.status = SessionStatus.active)
    (hask : n = Node.ask_password →
      ∃ nm a, st.mt.account = some nm ∧
        get_account_from_name st.dir nm = some a ∧ account_ok a) :
    LoginInv (node_call env st n i) := by
  cases n with
  | start => exact login_inv_start st hstat
  | username => exact login_inv_username st i hstat
  | ask_password =>
      obtain ⟨nm0, a, hacct, ha, hok⟩ := hask rfl
      exact login_inv_ask env st i hstat nm0 a hacct ha hok
  | create_account => exact login_inv_create_account st hstat
  | create_username => exact login_inv_create_username st i hstat
  | create_password => exact login_inv_create_password env st i hstat h
  | create_email_address => exact login_inv_create_email st i hstat h
  | validate_account => exact login_inv_validate st i hstat h
  | quit => exact login_inv_quit st
  | check_temporary_password => exact login_inv_check_temp st i hstat h
  | change_temporary_password => exact login_inv_change_temp env st i hstat h

/-- One engine round preserves the invariant. -/
theorem login_inv_step (env : Env) (st : SessionState) (i : String)
    (h : LoginInv st) : LoginInv (step env st i) := by
  cases hs : st.status with
  | active =>
    rw [step_active env st i hs]
    cases hf : find_option st.options i with
    | some o =>
      show LoginInv (node_call env
        (match o.echoExec with
         | some b => { st with echo := b }
         | none => st) o.goto i)
      have hmem : o ∈ st.options := List.mem_of_find?_eq_some hf
      cases he : o.echoExec with
      | some b =>
          exact login_inv_node_call env { st with echo := b } o.goto i h hs
            (fun hg => h.1 o hmem hg)
      | none =>
          exact login_inv_node_call env st o.goto i h hs
            (fun hg => h.1 o hmem hg)
    | none =>
      show LoginInv (match st.options.find? (fun o => o.key == "_default") with
        | some o => node_call env st o.goto i
        | none => st)
      cases hd : st.options.find? (fun o => o.key == "_default") with
      | some o =>
          exact login_inv_node_call env st o.goto i h hs
            (fun hg => h.1 o (List.mem_of_find?_eq_some hd) hg)
      | none => exact h
  | disconnected m =>
    rw [step_not_active env st i (by simp [hs])]
    exact h
  | loggedIn n =>
    rw [step_not_active env st i (by simp [hs])]
    exact h

theorem login_inv_run (env : Env) (inputs : List String) (st : SessionState)
    (h : LoginInv st) : LoginInv (run env st inputs) := by
  induction inputs generalizing st with
  | nil => exact h
  | cons a l ih => exact ih (step env st a) (login_inv_step env st a h)

theorem login_inv_init (dir : List Account) (rng : List Nat) :
    LoginInv (init_state dir rng) :=
  ⟨ask_route_ok_of_no_ask rfl, logged_in_valid_of_active rfl⟩

/-- C3: over EVERY reachable session state (any run from the initial
state), whenever the current options can route input into AskPassword —
the hand-in from Username as well as the retry loop after failed
attempts — the stored pending account resolves, and if it has an e-mail
on file and no pending validation code (the guard of the direct login
branch) it is Valid; consequently the direct AskPassword hand-off only
ever attaches a Valid account, any other non-Valid account reaching
AskPassword is diverted into the recovery or validation sub-flows on a
correct password, every reachable logged-in state holds a Valid account
in the directory, and the sub-flow hand-offs (ValidateAccount,
ChangeTemporaryPassword) mark the account Valid before their own login. -/
theorem C3_valid_before_normal_login :
    (∀ (env : Env) (dir : List Account) (rng : List Nat)
        (inputs : List String) (o : MenuOption),
      o ∈ (run env (init_state dir rng) inputs).options →
      o.goto = Node.ask_password →
      ∃ nm a, (run env (init_state dir rng) inputs).mt.account = some nm ∧
        get_account_from_name (run env (init_state dir rng) inputs).dir nm =
          some a ∧
        (a.email ≠ "" → a.validation_code = none → a.valid = true)) ∧
    (∀ (env : Env) (dir : List Account) (rng : List Nat)
        (inputs : List String) (nm : String),
      (run env (init_state dir rng) inputs).status =
        SessionStatus.loggedIn nm →
      ∃ a, get_account_from_name (run env (init_state dir rng) inputs).dir nm =
          some a ∧ a.valid = true) ∧
    (∀ (st2 : SessionState) (u nm : String),
      st2.status = SessionStatus.active →
      (validate_account_node st2 u).status = SessionStatus.loggedIn nm →
      ∃ a, get_account_from_name (validate_account_node st2 u).dir nm =
        some a ∧ a.valid = true) ∧
    (∀ (env : Env) (st2 : SessionState) (u nm : String),
      st2.status = SessionStatus.active →
      (change_temporary_password_node env st2 u).status =
        SessionStatus.loggedIn nm →
      ∃ a, get_account_from_name (change_temporary_password_node env st2 u).dir
        nm = some a ∧ a.valid = true) := by
  refine ⟨?_, ?_, ?_, ?_⟩
  · intro env dir rng inputs o ho hg
    exact (login_inv_run env inputs _ (login_inv_init dir rng)).1 o ho hg
  · intro env dir rng inputs nm hlog
    exact (login_inv_run env inputs _ (login_inv_init dir rng)).2 nm hlog
  · intro st2 u nm hact2 hlog2
    cases hacct : st2.mt.account with
    | none =>
      have hid : validate_account_node st2 u = st2 := by
        simp [validate_account_node, hacct]
      rw [hid, hact2] at hlog2
      exact absurd hlog2 (by simp)
    | some nm0 =>
      cases ha : get_account_from_name st2.dir nm0 with
      | none =>
        have hid : validate_account_node st2 u = st2 := by
          simp [validate_account_node, hacct, ha]
        rw [hid, hact2] at hlog2
        exact absurd hlog2 (by simp)
      | some a2 =>
        by_cases hm : (a2.validation_code != some (strip u)) = true
        · have hsame : (validate_account_node st2 u).status = st2.status := by
            simp [validate_account_node, hacct, ha, hm]
          rw [hsame, hact2] at hlog2
          exact absurd hlog2 (by simp)
        · rw [Bool.not_eq_true] at hm
          have hres : validate_account_node st2 u =
              { st2 with
                  dir := update_account st2.dir a2.name
                    (fun x => { x with valid := true, validation_code := none }),
                  msgs := st2.msgs ++ [welcome_text],
                  lastText := "", options := [],
                  status := SessionStatus.loggedIn a2.name } := by
            simp [validate_account_node, hacct, ha, hm]
          rw [hres] at hlog2 ⊢
          have hnm : a2.name = nm := by simpa using hlog2
          subst hnm
          refine ⟨{ a2 with valid := true, validation_code := none }, ?_, rfl⟩
          show get_account_from_name _ a2.name = _
          rw [lookup_update _ a2.name a2.name
              (fun x => { x with valid := true, validation_code := none })
              (fun x => rfl),
            lookup_self ha]
          simp
  · intro env st2 u nm hact2 hlog2
    cases hacct : st2.mt.account with
    | none =>
      have hid : change_temporary_password_node env st2 u = st2 := by
        simp [change_temporary_password_node, hacct]
      rw [hid, hact2] at hlog2
      exact absurd hlog2 (by simp)
    | some nm0 =>
      cases ha : get_account_from_name st2.dir nm0 with
      | none =>
        have hid : change_temporary_password_node env st2 u = st2 := by
          simp [change_temporary_password_node, hacct, ha]
        rw [hid, hact2] at hlog2
        exact absurd hlog2 (by simp)
      | some a2 =>
        by_cases hp : env.validate_password (strip u) = true
        · have hres : change_temporary_password_node env st2 u =
              { st2 with
                  dir := update_account st2.dir a2.name
                    (fun x => { x with password := strip u, valid := true }),
                  echo := true, lastText := "", options := [],
                  status := SessionStatus.loggedIn a2.name } := by
            simp [change_temporary_password_node, hacct, ha, hp]
          rw [hres] at hlog2 ⊢
          have hnm : a2.name = nm := by simpa using hlog2
          subst hnm
          refine ⟨{ a2 with password := strip u, valid := true }, ?_, rfl⟩
          show get_account_from_name _ a2.name = _
          rw [lookup_update _ a2.name a2.name
              (fun x => { x with password := strip u, valid := true })
              (fun x => rfl),
            lookup_self ha]
          simp
        · have hsame : (change_temporary_password_node env st2 u).status =
              st2.status := by
            simp [change_temporary_password_node, hacct, ha, hp]
          rw [hsame, hact2] at hlog2
          exact absurd hlog2 (by simp)

def c3_account : Account := ⟨"alice", "hunter", "alice@x.fr", true, false, none⟩

def c3_env : Env := ⟨"1.2.3.4", [], fun _ => true, Except.ok true⟩

def c3_state : SessionState := init_state [c3_account] []

/-- Witness for C3 at a reachable retry state: after the Username round
and one failed password attempt the options still route into AskPassword
and the invariant yields the resolved account's guarantee, and the direct
login on the following round attaches a Valid account. -/
theorem C3_valid_before_normal_login_witness :
    (run c3_env c3_state ["alice", "bad"]).options = password_options ∧
    (∃ nm a, (run c3_env c3_state ["alice", "bad"]).mt.account = some nm ∧
      get_account_from_name (run c3_env c3_state ["alice", "bad"]).dir nm =
        some a ∧
      (a.email ≠ "" → a.validation_code = none → a.valid = true)) ∧
    (run c3_env c3_state ["alice", "bad", "hunter"]).status =
      SessionStatus.loggedIn "alice" ∧
    ∃ a, get_account_from_name
        (run c3_env c3_state ["alice", "bad", "hunter"]).dir "alice" = some a ∧
      a.valid = true := by
  refine ⟨by decide, ?_, by decide, ?_⟩
  · exact C3_valid_before_normal_login.1 c3_env [c3_account] [] ["alice", "bad"]
      ⟨"_default", none, Node.ask_password⟩ (by decide) rfl
  · exact C3_valid_before_normal_login.2.1 c3_env [c3_account] []
      ["alice", "bad", "hunter"] "alice" (by decide)

end VanciaMenu
